import Mathlib

/-!
Shallow embedding of the NFC prepaid-card refill application
(Next.js client in src/app/page.tsx, API routes in src/app/api/chapa/route.ts
and src/app/api/chapa/verify/route.ts, plus the two unnamed route variants).

Conventions of the embedding:
* JS numbers are modelled as exact rationals. The only rounding the program
  performs is `Number(x.toFixed(2))`, modelled by `rnd2q` (round half up to
  2 fractional digits); all amounts in play are nonnegative and far from the
  float corner cases of `toFixed`.
* NDEF record payloads are byte lists. `TextDecoder` (non-fatal utf-8) is
  modelled byte-wise: ASCII bytes decode to their character, any other byte
  to the replacement character U+FFFD. Real utf-8 merges multibyte sequences
  into single non-ASCII characters; in both the real decoder and this model
  an ASCII digit character can only arise from the corresponding ASCII byte,
  which is what the decode claims depend on.
* Fallible JS operations (try/catch, nullable access) return Option; the
  JS idioms `a ?? b` and truthiness tests are modelled with Option.
* localStorage is the `Storage` structure; the React save effect (the
  component persists its state whenever it changes) is applied at the end of
  every modelled event handler.
-/

/-! ## TagCodec: decode side (decodeRecord, extractBalance in page.tsx) -/

abbrev Byte := Nat

structure NDEFRecordPayload where
  data : Option (List Byte)
deriving DecidableEq

structure NDEFMessagePayload where
  records : List NDEFRecordPayload
deriving DecidableEq

structure NDEFReadingEvent where
  serialNumber : Option String
  message : NDEFMessagePayload
deriving DecidableEq

/-- Byte-wise model of TextDecoder (utf-8, non-fatal): ASCII bytes decode to
their character, all other bytes to the replacement character. -/
def byteToChar (b : Byte) : Char :=
  if b < 128 then Char.ofNat b else '�'

def bytesToChars (bs : List Byte) : List Char := bs.map byteToChar

/-- Model of decodeRecord: null when the record has no data; the try/catch in
the source means a decoding failure is also returned as null, never thrown. -/
def decodeRecord (r : NDEFRecordPayload) : Option (List Char) :=
  r.data.map bytesToChars

def isDigit (c : Char) : Bool := 48 ≤ c.toNat && c.toNat ≤ 57

/-- Longest digit prefix and the remaining characters. -/
def takeDigits : List Char → List Char × List Char
  | [] => ([], [])
  | c :: cs =>
    if isDigit c then (c :: (takeDigits cs).1, (takeDigits cs).2)
    else ([], c :: cs)

/-- Attempt of the regex fragment \d+(?:\.\d+)? at the head of the input,
greedy, returning the matched characters. -/
def matchUnsignedAt (l : List Char) : Option (List Char) :=
  if (takeDigits l).1 = [] then none
  else
    match (takeDigits l).2 with
    | [] => some (takeDigits l).1
    | c :: r2 =>
      if c = '.' then
        if (takeDigits r2).1 = [] then some (takeDigits l).1
        else some ((takeDigits l).1 ++ '.' :: (takeDigits r2).1)
      else some (takeDigits l).1

/-- Attempt of the regex -?\d+(?:\.\d+)? at the head of the input. -/
def matchNumberAt (l : List Char) : Option (List Char) :=
  match l with
  | [] => none
  | c :: rest =>
    if c = '-' then (matchUnsignedAt rest).map (fun m => '-' :: m)
    else matchUnsignedAt (c :: rest)

/-- First match of /(-?\d+(?:\.\d+)?)/ scanning left to right, as
String.prototype.match does. -/
def firstMatch : List Char → Option (List Char)
  | [] => none
  | c :: cs =>
    match matchNumberAt (c :: cs) with
    | some m => some m
    | none => firstMatch cs

def digitVal (c : Char) : Nat := c.toNat - 48

def parseNat (ds : List Char) : Nat :=
  ds.foldl (fun a c => 10 * a + digitVal c) 0

/-- Value of an unsigned decimal numeral (digits, optional point, digits). -/
def parseUnsigned (l : List Char) : ℚ :=
  match (takeDigits l).2 with
  | [] => (parseNat (takeDigits l).1 : ℚ)
  | c :: r2 =>
    if c = '.' then
      (parseNat (takeDigits l).1 : ℚ) +
        (parseNat (takeDigits r2).1 : ℚ) / (10 : ℚ) ^ (takeDigits r2).1.length
    else (parseNat (takeDigits l).1 : ℚ)

/-- Number(s) on a string matched by the regex above; such a string always
parses to a finite value, so the NaN guard of the source never fires. -/
def parseDecimalChars (l : List Char) : ℚ :=
  match l with
  | [] => 0
  | c :: rest =>
    if c = '-' then -(parseUnsigned rest)
    else parseUnsigned (c :: rest)

/-- Model of extractBalance: first record whose decoded text is non-null and
non-empty (JS truthiness) and contains a regex match yields the parsed number;
otherwise null. -/
def extractBalanceGo : List NDEFRecordPayload → Option ℚ
  | [] => none
  | r :: rs =>
    match decodeRecord r with
    | none => extractBalanceGo rs
    | some text =>
      if text = [] then extractBalanceGo rs
      else
        match firstMatch text with
        | some m => some (parseDecimalChars m)
        | none => extractBalanceGo rs

def extractBalance (msg : NDEFMessagePayload) : Option ℚ :=
  extractBalanceGo msg.records

/-- Decoding the single-record tag content written by the application. -/
def decodeTag (bs : List Byte) : Option ℚ :=
  extractBalance ⟨[⟨some bs⟩]⟩

/-! ## TagCodec: encode side (writeBalanceToCard in page.tsx) -/

def digitChar (d : Nat) : Char := Char.ofNat (48 + d)

/-- Decimal digits, least significant first; structural recursion on fuel,
which never runs out when it starts at least at n. -/
def natDigitsRevAux : Nat → Nat → List Char
  | _, 0 => []
  | 0, _ + 1 => []
  | fuel + 1, n + 1 => digitChar ((n + 1) % 10) :: natDigitsRevAux fuel ((n + 1) / 10)

/-- Decimal digits of n, least significant first. -/
def natDigitsRev (n : Nat) : List Char := natDigitsRevAux n n

/-- Decimal rendering of a natural number, as JS renders integers. -/
def natToChars (n : Nat) : List Char :=
  if n = 0 then ['0'] else (natDigitsRev n).reverse

/-- Rendering of a signed amount of cents with exactly 2 fractional digits,
the shape produced by toFixed(2). -/
def centsToChars (c : ℤ) : List Char :=
  (if c < 0 then ['-'] else []) ++
    natToChars (c.natAbs / 100) ++
      '.' :: [digitChar (c.natAbs / 10 % 10), digitChar (c.natAbs % 10)]

/-- Rounding of x.toFixed(2) to whole cents: round half up. -/
def rnd2c (q : ℚ) : ℤ := ⌊q * 100 + 1 / 2⌋

/-- Number(x.toFixed(2)): the value rounded to 2 fractional digits. -/
def rnd2q (q : ℚ) : ℚ := (rnd2c q : ℚ) / 100

/-- x.toFixed(2) as characters. -/
def toFixed2Chars (q : ℚ) : List Char := centsToChars (rnd2c q)

/-- The text record written to the tag: "BAL:" followed by the balance with
2 fractional digits (writeBalanceToCard). -/
def encodeTagChars (q : ℚ) : List Char :=
  'B' :: 'A' :: 'L' :: ':' :: toFixed2Chars q

/-- The bytes of the written record (all characters are ASCII). -/
def encodeTagBytes (q : ℚ) : List Byte :=
  (encodeTagChars q).map Char.toNat

/-! ### Evaluation checks for the codec -/

example : decodeTag ((['h', 'i', '!']).map Char.toNat) = none := by decide

example : rnd2c ((1234 : ℚ) / 100) = 1234 := by
  unfold rnd2c
  norm_num

example : centsToChars 1234 = ['1', '2', '.', '3', '4'] := by decide

example : centsToChars (-50) = ['-', '0', '.', '5', '0'] := by decide

example : rnd2q (50 * (1165 / 1000)) = 233 / 4 := by
  unfold rnd2q rnd2c
  norm_num

/-! ## Data model (page.tsx component state and localStorage) -/

inductive StatusTone
  | info
  | success
  | alert
deriving DecidableEq

structure CardSnapshot where
  balance : ℚ
  serialNumber : String
  lastSynced : ℤ
deriving DecidableEq

structure PendingPayment where
  userAmount : ℚ
  txRef : String
  cardSerial : String
  processedAt : ℤ
deriving DecidableEq

structure ReceiptData where
  txRef : String
  amount : ℚ
  vat : ℚ
  serviceFee : ℚ
  total : ℚ
  reason : String
  initiatedAt : ℤ
  finalizedAt : ℤ
deriving DecidableEq

structure AppState where
  card : Option CardSnapshot
  amount : String
  pendingPayment : Option PendingPayment
  receipt : Option ReceiptData
  statusTone : StatusTone
  statusMessage : String
  needsReset : Bool
  paymentReference : Option String
deriving DecidableEq

/-- The object serialized under the elpa_app_state localStorage key. -/
structure SavedState where
  card : Option CardSnapshot
  amount : Option String
  pendingPayment : Option PendingPayment
  receipt : Option ReceiptData
  status : Option (StatusTone × String)
deriving DecidableEq

/-- The object serialized under the chapa_pending_card localStorage key. -/
structure PendingCardInfo where
  serialNumber : String
  balance : ℚ
  userAmount : ℚ
deriving DecidableEq

/-- The two localStorage slots the application uses. -/
structure Storage where
  appState : Option SavedState
  pendingCard : Option PendingCardInfo
deriving DecidableEq

def initialState : AppState :=
  { card := none
    amount := "50"
    pendingPayment := none
    receipt := none
    statusTone := .info
    statusMessage := "Android Chrome + NFC only. Start by reading your card to begin the refill process."
    needsReset := false
    paymentReference := none }

/-- The state snapshot the save effect persists whenever component state
changes. -/
def toSaved (st : AppState) : SavedState :=
  { card := st.card
    amount := some st.amount
    pendingPayment := st.pendingPayment
    receipt := st.receipt
    status := some (st.statusTone, st.statusMessage) }

/-- The save effect: writes the current state under elpa_app_state. -/
def saveEffect (st : AppState) (storage : Storage) : Storage :=
  { storage with appState := some (toSaved st) }

/-- clearAppState in page.tsx: removes both localStorage keys. -/
def clearAppState (_storage : Storage) : Storage :=
  { appState := none, pendingCard := none }

/-- The mount effect of HomeContent (page.tsx lines 144 to 162): restores each
truthy field of the parsed saved state and performs no storage mutation. It
consults no clock and no TTL: the age of the saved record plays no role. -/
def loadState (storage : Storage) : AppState :=
  match storage.appState with
  | none => initialState
  | some saved =>
    { card := match saved.card with
        | some c => some c
        | none => initialState.card
      amount := match saved.amount with
        | some a => if a = "" then initialState.amount else a
        | none => initialState.amount
      pendingPayment := match saved.pendingPayment with
        | some p => some p
        | none => initialState.pendingPayment
      receipt := match saved.receipt with
        | some r => some r
        | none => initialState.receipt
      statusTone := match saved.status with
        | some s => s.1
        | none => initialState.statusTone
      statusMessage := match saved.status with
        | some s => s.2
        | none => initialState.statusMessage
      needsReset := false
      paymentReference := none }

/-- The mount effect as a state and storage transformer: it only reads
localStorage, so the storage component is returned unchanged. -/
def mountLoad (storage : Storage) : AppState × Storage :=
  (loadState storage, storage)

/-! ## Receipt construction (receiptData in handleReadCard, page.tsx 366-380) -/

/-- The receipt built on successful application: vat is 15 percent and
serviceFee 1.5 percent of the amount, each rounded to cents; total is the
amount times 1.165 rounded to cents (not the sum of the other fields). -/
def mkReceipt (p : PendingPayment) (now : ℤ) : ReceiptData :=
  { txRef := p.txRef
    amount := p.userAmount
    vat := rnd2q (p.userAmount * (15 / 100))
    serviceFee := rnd2q (p.userAmount * (15 / 1000))
    total := rnd2q (p.userAmount * (1165 / 1000))
    reason := "NFC Card Refill"
    initiatedAt := p.processedAt
    finalizedAt := now }

/-! ## Card reading (handleReadCard onreading handler, page.tsx 321-404) -/

/-- Result of one onreading event: the component state afterwards, the
localStorage contents afterwards (save effect included), and the bytes
written to the tag, if a write happened. -/
structure ReadOutcome where
  state : AppState
  storage : Storage
  tagWrite : Option (List Byte)
deriving DecidableEq

/-- The onreading handler of handleReadCard. writeOk tells whether the
ndef.write call succeeds (its failure is the catch branch). -/
def handleReading (st : AppState) (storage : Storage) (ev : NDEFReadingEvent)
    (writeOk : Bool) (now : ℤ) : ReadOutcome :=
  let cardSerial := ev.serialNumber.getD "Unknown card"
  match extractBalance ev.message with
  | none =>
    let st1 := { st with
      needsReset := true
      statusTone := .alert
      statusMessage := "Card detected but no balance was found. Tap Reset to 0 ETB to initialize." }
    ⟨st1, saveEffect st1 storage, none⟩
  | some balanceFromCard =>
    let newCard : CardSnapshot :=
      { balance := balanceFromCard, serialNumber := cardSerial, lastSynced := now }
    match st.pendingPayment with
    | some p =>
      if p.cardSerial = cardSerial then
        let updatedBalance := rnd2q (balanceFromCard + p.userAmount)
        if writeOk then
          let st1 := { st with
            needsReset := false
            card := some { newCard with balance := updatedBalance }
            pendingPayment := none
            paymentReference := some p.txRef
            receipt := some (mkReceipt p now)
            statusTone := .success
            statusMessage := "Card updated! New balance applied." }
          ⟨st1, saveEffect st1 (clearAppState storage), some (encodeTagBytes updatedBalance)⟩
        else
          let st1 := { st with
            needsReset := false
            card := some newCard
            pendingPayment := some p
            statusTone := .alert
            statusMessage := "Failed to write to card. Please try again." }
          ⟨st1, saveEffect st1 storage, none⟩
      else
        let st1 := { st with
          needsReset := false
          card := some newCard
          statusTone := .success
          statusMessage := "Balance pulled directly from the card." }
        ⟨st1, saveEffect st1 storage, none⟩
    | none =>
      let st1 := { st with
        needsReset := false
        card := some newCard
        statusTone := .success
        statusMessage := "Balance pulled directly from the card." }
      ⟨st1, saveEffect st1 storage, none⟩

/-! ## Server route: payment initialization
(src/app/api/chapa/route.ts POST, and the variant route in the unnamed
source file with metadata). String conversions between the JS number and its
JSON rendering are collapsed to the numeric value, which is what survives the
round trip through the gateway metadata. -/

/-- The body sent to the Chapa transaction initialize endpoint. The meta
userAmount field is absent (none) in the checked-in route and present in the
variant route. -/
structure ChapaInitiatePayload where
  amount : String
  currency : String
  txRef : String
  metaCardSerial : String
  metaUserAmount : Option ℚ
deriving DecidableEq

/-- POST body of /api/chapa as parsed by the route: both fields may be
missing. -/
structure InitiateRequestBody where
  amount : Option ℚ
  cardSerial : Option String
deriving DecidableEq

/-- The checked-in initialize route: charges the fixed amount "1" and puts
only the card serial in the metadata; the requested amount is not sent. -/
def buildChapaPayload (body : InitiateRequestBody) (now : ℤ) : ChapaInitiatePayload :=
  { amount := "1"
    currency := "ETB"
    txRef := "ELPA-" ++ toString now
    metaCardSerial := body.cardSerial.getD "UNKNOWN"
    metaUserAmount := none }

/-- The variant initialize route (unnamed source file): still charges the
fixed amount "1" but carries the requested amount, defaulted to 50, in the
metadata. -/
def buildChapaPayloadMeta (body : InitiateRequestBody) (now : ℤ) : ChapaInitiatePayload :=
  { amount := "1"
    currency := "ETB"
    txRef := "ELPA-" ++ toString now
    metaCardSerial := body.cardSerial.getD "UNKNOWN"
    metaUserAmount := some (body.amount.getD 50) }

/-! ## Server route: payment verification (src/app/api/chapa/verify/route.ts GET) -/

/-- The gateway reply to the verify call, as the route reads it. -/
structure ChapaVerifyGatewayResponse where
  ok : Bool
  status : Option String
  dataMetaUserAmount : Option ℚ
  metaUserAmount : Option ℚ
  errorMessage : Option String
deriving DecidableEq

/-- The JSON the verify route returns to the client. -/
structure VerifyApiResponse where
  ok : Bool
  status : Option String
  txRef : Option String
  userAmount : Option ℚ
  processedAt : Option ℤ
  errorMessage : Option String
deriving DecidableEq

/-- GET /api/chapa/verify: maps any gateway status other than "success" to
"failed", and takes the user amount from the gateway metadata, falling back
to the string "50" (parsed: 50). The route never reads the charged amount of
the transaction and never sets processedAt. -/
def chapaVerifyGET (keyPresent : Bool) (txRef : Option String)
    (gw : ChapaVerifyGatewayResponse) : VerifyApiResponse :=
  if keyPresent = false then
    { ok := false, status := none, txRef := none, userAmount := none
      processedAt := none
      errorMessage := some "Server missing CHAPA_SECRET_KEY environment variable." }
  else
    match txRef with
    | none =>
      { ok := false, status := none, txRef := none, userAmount := none
        processedAt := none
        errorMessage := some "Missing transaction reference (tx_ref)." }
    | some t =>
      if gw.ok = false then
        { ok := false, status := none, txRef := none, userAmount := none
          processedAt := none
          errorMessage := some ((gw.errorMessage).getD "Unable to verify payment with Chapa.") }
      else
        { ok := true
          status := some (if gw.status = some "success" then "success" else "failed")
          txRef := some t
          userAmount := some (((gw.dataMetaUserAmount).orElse fun _ => gw.metaUserAmount).getD 50)
          processedAt := none
          errorMessage := none }

/-! ## Client: verification on return (verifyPaymentFromUrl effect,
page.tsx lines 236 to 300) -/

/-- The verifyPaymentFromUrl effect run on mount when the URL carries tx_ref.
Returns the component state and the storage after the effect (save effect
included). cardInfo.userAmount always exists in storage, so the final
fallback to 50 of the source is unreachable here. -/
def verifyPaymentFromUrl (st : AppState) (storage : Storage)
    (urlTxRef : Option String) (resp : VerifyApiResponse) (now : ℤ) :
    AppState × Storage :=
  match urlTxRef with
  | none => (st, storage)
  | some txRef =>
    if resp.ok = false then
      let st1 := { st with
        statusTone := .alert
        statusMessage := (resp.errorMessage).getD "Unable to verify payment." }
      (st1, saveEffect st1 (clearAppState storage))
    else if resp.status = some "success" then
      match storage.pendingCard with
      | some cardInfo =>
        let pending : PendingPayment :=
          { userAmount := (resp.userAmount).getD cardInfo.userAmount
            txRef := (resp.txRef).getD txRef
            cardSerial := cardInfo.serialNumber
            processedAt := (resp.processedAt).getD now }
        let st1 := { st with
          pendingPayment := some pending
          statusTone := .success
          statusMessage := "Payment confirmed! Read your card to apply." }
        (st1, saveEffect st1 { storage with pendingCard := none })
      | none =>
        let st1 := { st with
          statusTone := .alert
          statusMessage := "Payment confirmed but card info was lost. Please start over." }
        (st1, saveEffect st1 (clearAppState storage))
    else
      let st1 := { st with
        statusTone := .alert
        statusMessage := "Payment was not completed." }
      (st1, saveEffect st1 (clearAppState storage))

/-! ## Client: starting a refill (handleChapaRefill, page.tsx lines 428-515) -/

/-- Number(s) for the amount input string: empty string is 0, otherwise the
whole string must be a decimal numeral (sign, digits, optional fraction);
anything else is NaN, modelled as none. -/
def jsNumber (s : String) : Option ℚ :=
  match s.data with
  | [] => some 0
  | c :: cs =>
    match matchNumberAt (c :: cs) with
    | some m => if m = c :: cs then some (parseDecimalChars m) else none
    | none => none

/-- The JSON the initialize route returns to the client. -/
structure InitiateApiResponse where
  ok : Bool
  checkoutUrl : Option String
  txRef : Option String
  errorMessage : Option String
deriving DecidableEq

def MAX_AMOUNT : ℚ := 10000

structure RefillOutcome where
  state : AppState
  storage : Storage
  redirect : Option String
deriving DecidableEq

/-- handleChapaRefill: validates the amount, stores the chapa_pending_card
record, calls the initialize route and redirects to the checkout URL. -/
def handleChapaRefill (st : AppState) (storage : Storage)
    (resp : InitiateApiResponse) : RefillOutcome :=
  match st.card with
  | none =>
    let st1 := { st with
      statusTone := .alert
      statusMessage := "Read the card first so we know the starting balance." }
    ⟨st1, saveEffect st1 storage, none⟩
  | some card =>
    match jsNumber st.amount with
    | none =>
      let st1 := { st with
        statusTone := .alert
        statusMessage := "Amount has to be greater than zero." }
      ⟨st1, saveEffect st1 storage, none⟩
    | some parsedAmount =>
      if parsedAmount ≤ 0 then
        let st1 := { st with
          statusTone := .alert
          statusMessage := "Amount has to be greater than zero." }
        ⟨st1, saveEffect st1 storage, none⟩
      else if MAX_AMOUNT < parsedAmount then
        let st1 := { st with
          statusTone := .alert
          statusMessage := "Maximum top-up per tap exceeded." }
        ⟨st1, saveEffect st1 storage, none⟩
      else
        let info : PendingCardInfo :=
          { serialNumber := card.serialNumber
            balance := card.balance
            userAmount := parsedAmount }
        let storage1 := { storage with pendingCard := some info }
        if resp.ok = false then
          let st1 := { st with
            paymentReference := none
            statusTone := .alert
            statusMessage := (resp.errorMessage).getD "Chapa payment failed." }
          ⟨st1, saveEffect st1 storage1, none⟩
        else
          match resp.checkoutUrl with
          | some url =>
            let st1 := { st with
              paymentReference := none
              statusTone := .info
              statusMessage := "Redirecting to Chapa now…" }
            ⟨st1, saveEffect st1 storage1, some url⟩
          | none =>
            let st1 := { st with
              paymentReference := none
              statusTone := .alert
              statusMessage := (resp.errorMessage).getD "Chapa did not return a checkout URL." }
            ⟨st1, saveEffect st1 storage1, none⟩

/-! ## Concrete scenario inputs used by the claim checks -/

/-- The pending record persisted under the appState key, when there is one. -/
def persistedPending (storage : Storage) : Option PendingPayment :=
  storage.appState.bind fun saved => saved.pendingPayment

/-- Tag bytes holding the text BAL: followed by the rendering of the given
cents. -/
def tagBytes (cents : ℤ) : List Byte :=
  ('B' :: 'A' :: 'L' :: ':' :: centsToChars cents).map Char.toNat

/-- A reading event for the card with the given serial whose tag holds the
given cents. -/
def tagEvent (serial : String) (cents : ℤ) : NDEFReadingEvent :=
  { serialNumber := some serial
    message := { records := [{ data := some (tagBytes cents) }] } }

/-- C1 scenario: a verified pending payment of 50 for reference R1 bound to
card A1. -/
def c1Pending : PendingPayment :=
  { userAmount := 50, txRef := "R1", cardSerial := "A1", processedAt := 0 }

def c1State : AppState :=
  { initialState with
    card := some { balance := 20, serialNumber := "A1", lastSynced := 0 }
    pendingPayment := some c1Pending }

/-- Persisted snapshot of the pre-application state: this is what localStorage
holds between the save effect that persisted the pending record and the purge
that follows a successful write. -/
def c1Storage : Storage :=
  { appState := some (toSaved c1State), pendingCard := none }

/-- First application: card A1 presented, tag holds 20.00. -/
def c1First : ReadOutcome :=
  handleReading c1State c1Storage (tagEvent "A1" 2000) true 1

/-- Reload between the successful write and the purge: the state is rebuilt
from the still-persisted storage. -/
def c1Resumed : AppState := loadState c1Storage

/-- Second application attempt: the same card is presented again; its tag now
holds the 70.00 written by the first application. -/
def c1Second : ReadOutcome :=
  handleReading c1Resumed c1Storage (tagEvent "A1" 7000) true 2

/-- C2 scenario: a pending record created at time 0 (milliseconds), loaded at
any later time, in particular 360000 ms = 6 minutes later. -/
def c2Pending : PendingPayment :=
  { userAmount := 50, txRef := "R2", cardSerial := "A1", processedAt := 0 }

def c2Saved : SavedState :=
  { card := none, amount := none, pendingPayment := some c2Pending
    receipt := none, status := none }

def c2Storage : Storage := { appState := some c2Saved, pendingCard := none }

/-- C3 scenario: begin a refill of 50 for card A1 with balance 20.00. -/
def c3Card : CardSnapshot := { balance := 20, serialNumber := "A1", lastSynced := 0 }

def c3State0 : AppState := { initialState with card := some c3Card }

def c3Storage0 : Storage := { appState := some (toSaved c3State0), pendingCard := none }

def c3InitResp : InitiateApiResponse :=
  { ok := true, checkoutUrl := some "https://checkout.chapa.co/R1"
    txRef := some "R1", errorMessage := none }

def c3Refill : RefillOutcome := handleChapaRefill c3State0 c3Storage0 c3InitResp

/-- The verify response after returning from checkout: success, confirmed
amount 50, reference R1. -/
def c3VerifyResp : VerifyApiResponse :=
  { ok := true, status := some "success", txRef := some "R1"
    userAmount := some 50, processedAt := none, errorMessage := none }

/-- After the redirect the page reloads from storage, then the verification
effect runs. -/
def c3AfterVerify : AppState × Storage :=
  verifyPaymentFromUrl (loadState c3Refill.storage) c3Refill.storage
    (some "R1") c3VerifyResp 1

/-- Card A1 is presented with balance 20.00 and the write succeeds. -/
def c3Final : ReadOutcome :=
  handleReading c3AfterVerify.1 c3AfterVerify.2 (tagEvent "A1" 2000) true 2

/-- C4 counterexample input: a base amount of 1.11. -/
def c4Pending : PendingPayment :=
  { userAmount := 111 / 100, txRef := "T1", cardSerial := "C1", processedAt := 0 }

/-- C6 scenario: the user requests 50; the route charges the fixed amount. -/
def c6Body : InitiateRequestBody := { amount := some 50, cardSerial := some "A1" }

def c6Gateway : ChapaVerifyGatewayResponse :=
  { ok := true, status := some "success", dataMetaUserAmount := some 50
    metaUserAmount := none, errorMessage := none }

def c6VerifyResp : VerifyApiResponse := chapaVerifyGET true (some "R1") c6Gateway

def c6Storage : Storage :=
  { appState := none
    pendingCard := some { serialNumber := "A1", balance := 20, userAmount := 50 } }

def c6AfterVerify : AppState × Storage :=
  verifyPaymentFromUrl initialState c6Storage (some "R1") c6VerifyResp 1

/-- C10 scenario: a successful gateway verification that carries no
userAmount metadata at all. -/
def c10Gateway : ChapaVerifyGatewayResponse :=
  { ok := true, status := some "success", dataMetaUserAmount := none
    metaUserAmount := none, errorMessage := none }

/-- C10 scenario: a gateway verification with a non-success status. -/
def c10FailGateway : ChapaVerifyGatewayResponse :=
  { ok := true, status := some "pending", dataMetaUserAmount := none
    metaUserAmount := none, errorMessage := none }

def c10Storage : Storage :=
  { appState := none
    pendingCard := some { serialNumber := "A7", balance := 0, userAmount := 75 } }

/-- C8 witness input: a record with no data, a record with malformed bytes
(a non-utf8 byte followed by text), and a record with empty data. -/
def c8Msg : NDEFMessagePayload :=
  { records := [{ data := none }, { data := some [255, 104, 105, 33] }, { data := some [] }] }

/-! ## Lemmas about digits and the codec -/

theorem digitChar_facts : ∀ d < 10, isDigit (digitChar d) = true ∧ digitVal (digitChar d) = d := by
  decide

theorem isDigit_bounds {c : Char} (h : isDigit c = true) :
    48 ≤ c.toNat ∧ c.toNat ≤ 57 := by
  simpa [isDigit] using h

theorem natDigitsRevAux_digits :
    ∀ fuel n, ∀ c ∈ natDigitsRevAux fuel n, isDigit c = true := by
  intro fuel
  induction fuel with
  | zero =>
    intro n c hc
    cases n <;> simp [natDigitsRevAux] at hc
  | succ f ih =>
    intro n c hc
    cases n with
    | zero => simp [natDigitsRevAux] at hc
    | succ m =>
      simp only [natDigitsRevAux, List.mem_cons] at hc
      rcases hc with h | h
      · subst h
        exact (digitChar_facts _ (Nat.mod_lt _ (by norm_num))).1
      · exact ih _ c h

theorem parseNat_append_digit (xs : List Char) (c : Char) :
    parseNat (xs ++ [c]) = 10 * parseNat xs + digitVal c := by
  simp [parseNat, List.foldl_append]

theorem parseNat_natDigitsRevAux :
    ∀ fuel n, n ≤ fuel → parseNat (natDigitsRevAux fuel n).reverse = n := by
  intro fuel
  induction fuel with
  | zero =>
    intro n hn
    interval_cases n
    simp [natDigitsRevAux, parseNat]
  | succ f ih =>
    intro n hn
    cases n with
    | zero => simp [natDigitsRevAux, parseNat]
    | succ m =>
      have hdiv : (m + 1) / 10 ≤ f := by
        have := Nat.div_lt_self (Nat.succ_pos m) (show 1 < 10 by norm_num)
        omega
      simp only [natDigitsRevAux, List.reverse_cons]
      rw [parseNat_append_digit, ih _ hdiv,
        (digitChar_facts _ (Nat.mod_lt _ (by norm_num))).2]
      omega

theorem parseNat_natToChars (n : Nat) : parseNat (natToChars n) = n := by
  by_cases h : n = 0
  · subst h; decide
  · simp only [natToChars, if_neg h, natDigitsRev]
    exact parseNat_natDigitsRevAux n n le_rfl

theorem natToChars_digits (n : Nat) : ∀ c ∈ natToChars n, isDigit c = true := by
  intro c hc
  by_cases h : n = 0
  · subst h; simp [natToChars] at hc; subst hc; decide
  · simp only [natToChars, if_neg h, natDigitsRev, List.mem_reverse] at hc
    exact natDigitsRevAux_digits n n c hc

theorem natToChars_ne_nil (n : Nat) : natToChars n ≠ [] := by
  by_cases h : n = 0
  · subst h; simp [natToChars]
  · simp only [natToChars, if_neg h, natDigitsRev]
    obtain ⟨m, rfl⟩ := Nat.exists_eq_succ_of_ne_zero h
    cases m <;> simp [natDigitsRevAux]

theorem takeDigits_append (ds rest : List Char)
    (hds : ∀ c ∈ ds, isDigit c = true)
    (hrest : ∀ c, rest.head? = some c → isDigit c = false) :
    takeDigits (ds ++ rest) = (ds, rest) := by
  induction ds with
  | nil =>
    cases rest with
    | nil => simp [takeDigits]
    | cons c cs => simp [takeDigits, hrest c rfl]
  | cons d ds ih =>
    have hd : isDigit d = true := hds d (by simp)
    have := ih (fun c hc => hds c (by simp [hc]))
    simp [takeDigits, hd, this]

theorem takeDigits_all (ds : List Char) (hds : ∀ c ∈ ds, isDigit c = true) :
    takeDigits ds = (ds, []) := by
  have := takeDigits_append ds [] hds (by intro c hc; simp at hc)
  simpa using this

theorem matchUnsignedAt_numeral (ds : List Char) (c1 c2 : Char)
    (hds : ∀ c ∈ ds, isDigit c = true) (hne : ds ≠ [])
    (h1 : isDigit c1 = true) (h2 : isDigit c2 = true) :
    matchUnsignedAt (ds ++ '.' :: [c1, c2]) = some (ds ++ '.' :: [c1, c2]) := by
  have hdot : isDigit '.' = false := by decide
  have ht : takeDigits (ds ++ '.' :: [c1, c2]) = (ds, '.' :: [c1, c2]) :=
    takeDigits_append ds ('.' :: [c1, c2]) hds
      (by intro c hc; simp at hc; subst hc; exact hdot)
  have ht2 : takeDigits [c1, c2] = ([c1, c2], []) :=
    takeDigits_all [c1, c2] (by intro c hc; simp at hc; rcases hc with rfl | rfl <;> assumption)
  simp [matchUnsignedAt, ht, ht2, hne]

theorem firstMatch_cons_skip (c : Char) (l : List Char)
    (hc : isDigit c = false) (hc2 : c ≠ '-') :
    firstMatch (c :: l) = firstMatch l := by
  have : matchNumberAt (c :: l) = none := by
    simp only [matchNumberAt, if_neg hc2]
    simp [matchUnsignedAt, takeDigits, hc]
  simp [firstMatch, this]

theorem firstMatch_of_matchNumberAt (c : Char) (l : List Char) (m : List Char)
    (h : matchNumberAt (c :: l) = some m) : firstMatch (c :: l) = some m := by
  simp [firstMatch, h]

theorem parseNat_two (c1 c2 : Char) :
    parseNat [c1, c2] = 10 * digitVal c1 + digitVal c2 := by
  simp [parseNat]

theorem parseUnsigned_numeral (ds : List Char) (c1 c2 : Char)
    (hds : ∀ c ∈ ds, isDigit c = true)
    (h1 : isDigit c1 = true) (h2 : isDigit c2 = true) :
    parseUnsigned (ds ++ '.' :: [c1, c2]) =
      (parseNat ds : ℚ) + (10 * digitVal c1 + digitVal c2 : ℕ) / 100 := by
  have hdot : isDigit '.' = false := by decide
  have ht : takeDigits (ds ++ '.' :: [c1, c2]) = (ds, '.' :: [c1, c2]) :=
    takeDigits_append ds ('.' :: [c1, c2]) hds
      (by intro c hc; simp at hc; subst hc; exact hdot)
  have ht2 : takeDigits [c1, c2] = ([c1, c2], []) :=
    takeDigits_all [c1, c2] (by intro c hc; simp at hc; rcases hc with rfl | rfl <;> assumption)
  simp [parseUnsigned, ht, ht2, parseNat_two]
  norm_num

/-- The canonical numeral for a nonnegative count of cents, with its decode
value. -/
theorem parse_centsNumeral (a : Nat) :
    parseUnsigned (natToChars (a / 100) ++ '.' ::
        [digitChar (a / 10 % 10), digitChar (a % 10)]) = (a : ℚ) / 100 := by
  have h1 := (digitChar_facts (a / 10 % 10) (Nat.mod_lt _ (by norm_num))).1
  have h2 := (digitChar_facts (a % 10) (Nat.mod_lt _ (by norm_num))).1
  rw [parseUnsigned_numeral _ _ _ (natToChars_digits _) h1 h2]
  rw [parseNat_natToChars,
    (digitChar_facts (a / 10 % 10) (Nat.mod_lt _ (by norm_num))).2,
    (digitChar_facts (a % 10) (Nat.mod_lt _ (by norm_num))).2]
  have hmod : 10 * (a / 10 % 10) + a % 10 = a % 100 := by omega
  rw [hmod]
  have hnat : a = 100 * (a / 100) + a % 100 := by omega
  have hq := congrArg (fun n : ℕ => (n : ℚ)) hnat
  push_cast at hq
  field_simp
  linarith [hq]

theorem matchNumberAt_numeral_pos (a : Nat) :
    matchNumberAt (natToChars (a / 100) ++ '.' ::
        [digitChar (a / 10 % 10), digitChar (a % 10)]) =
      some (natToChars (a / 100) ++ '.' ::
        [digitChar (a / 10 % 10), digitChar (a % 10)]) := by
  have h1 := (digitChar_facts (a / 10 % 10) (Nat.mod_lt _ (by norm_num))).1
  have h2 := (digitChar_facts (a % 10) (Nat.mod_lt _ (by norm_num))).1
  have hm := matchUnsignedAt_numeral (natToChars (a / 100)) _ _
    (natToChars_digits _) (natToChars_ne_nil _) h1 h2
  obtain ⟨d, ds, hds⟩ : ∃ d ds, natToChars (a / 100) = d :: ds := by
    cases h : natToChars (a / 100) with
    | nil => exact absurd h (natToChars_ne_nil _)
    | cons d ds => exact ⟨d, ds, rfl⟩
  have hd : isDigit d = true := by
    apply natToChars_digits (a / 100); rw [hds]; simp
  have hdd : d ≠ '-' := by
    intro h
    subst h
    simp [isDigit] at hd
  rw [hds] at hm ⊢
  simp only [List.cons_append, matchNumberAt, if_neg hdd]
  simpa using hm

theorem byteToChar_toNat (c : Char) (h : c.toNat < 128) :
    byteToChar c.toNat = c := by
  simp [byteToChar, h]

theorem bytesToChars_map_toNat (l : List Char) (h : ∀ c ∈ l, c.toNat < 128) :
    bytesToChars (l.map Char.toNat) = l := by
  induction l with
  | nil => simp [bytesToChars]
  | cons c cs ih =>
    have h1 : byteToChar c.toNat = c := byteToChar_toNat c (h c (by simp))
    have h2 := ih (fun x hx => h x (by simp [hx]))
    simp only [bytesToChars, List.map_cons] at h2 ⊢
    rw [h1, h2]

theorem centsToChars_ascii (c : ℤ) : ∀ ch ∈ centsToChars c, ch.toNat < 128 := by
  intro ch hch
  simp only [centsToChars, List.mem_append] at hch
  rcases hch with (hsign | hnat) | hfrac
  · by_cases hc : c < 0
    · rw [if_pos hc] at hsign
      simp only [List.mem_singleton] at hsign
      subst hsign
      decide
    · rw [if_neg hc] at hsign
      simp at hsign
  · have := isDigit_bounds (natToChars_digits _ ch hnat)
    omega
  · simp only [List.mem_cons] at hfrac
    rcases hfrac with rfl | rfl | rfl | hfalse
    · decide
    · have := isDigit_bounds (digitChar_facts (Int.natAbs c / 10 % 10)
        (Nat.mod_lt _ (by norm_num))).1
      omega
    · have := isDigit_bounds (digitChar_facts (Int.natAbs c % 10)
        (Nat.mod_lt _ (by norm_num))).1
      omega
    · simp at hfalse

theorem firstMatch_centsToChars (c : ℤ) :
    firstMatch (centsToChars c) = some
      ((if c < 0 then ['-'] else []) ++ natToChars (c.natAbs / 100) ++ '.' ::
        [digitChar (c.natAbs / 10 % 10), digitChar (c.natAbs % 10)]) := by
  by_cases hc : c < 0
  · simp only [centsToChars, if_pos hc, List.cons_append, List.nil_append]
    apply firstMatch_of_matchNumberAt
    simp only [matchNumberAt, if_pos rfl]
    have h1 := (digitChar_facts (Int.natAbs c / 10 % 10) (Nat.mod_lt _ (by norm_num))).1
    have h2 := (digitChar_facts (Int.natAbs c % 10) (Nat.mod_lt _ (by norm_num))).1
    rw [matchUnsignedAt_numeral _ _ _ (natToChars_digits _) (natToChars_ne_nil _) h1 h2]
    simp
  · simp only [centsToChars, if_neg hc, List.nil_append]
    obtain ⟨d, ds, hds⟩ : ∃ d ds, natToChars (Int.natAbs c / 100) = d :: ds := by
      cases h : natToChars (Int.natAbs c / 100) with
      | nil => exact absurd h (natToChars_ne_nil _)
      | cons d ds => exact ⟨d, ds, rfl⟩
    rw [hds, List.cons_append]
    apply firstMatch_of_matchNumberAt
    rw [← List.cons_append, ← hds]
    exact matchNumberAt_numeral_pos (Int.natAbs c)

theorem parseDecimalChars_centsToChars (c : ℤ) :
    parseDecimalChars
      ((if c < 0 then ['-'] else []) ++ natToChars (c.natAbs / 100) ++ '.' ::
        [digitChar (c.natAbs / 10 % 10), digitChar (c.natAbs % 10)]) = (c : ℚ) / 100 := by
  by_cases hc : c < 0
  · simp only [if_pos hc, List.cons_append, List.nil_append]
    rw [show parseDecimalChars ('-' :: (natToChars (Int.natAbs c / 100) ++ '.' ::
        [digitChar (Int.natAbs c / 10 % 10), digitChar (Int.natAbs c % 10)])) =
      -(parseUnsigned (natToChars (Int.natAbs c / 100) ++ '.' ::
        [digitChar (Int.natAbs c / 10 % 10), digitChar (Int.natAbs c % 10)])) by
        simp [parseDecimalChars]]
    rw [parse_centsNumeral]
    rw [Int.cast_natAbs, Int.cast_abs]
    rw [abs_of_neg (show (c : ℚ) < 0 by exact_mod_cast hc)]
    ring
  · simp only [if_neg hc, List.nil_append]
    obtain ⟨d, ds, hds⟩ : ∃ d ds, natToChars (Int.natAbs c / 100) = d :: ds := by
      cases h : natToChars (Int.natAbs c / 100) with
      | nil => exact absurd h (natToChars_ne_nil _)
      | cons d ds => exact ⟨d, ds, rfl⟩
    have hd : isDigit d = true := by
      apply natToChars_digits (Int.natAbs c / 100)
      rw [hds]
      simp
    have hdd : d ≠ '-' := by
      intro h
      subst h
      simp [isDigit] at hd
    rw [hds, List.cons_append]
    rw [show parseDecimalChars (d :: (ds ++ '.' ::
        [digitChar (Int.natAbs c / 10 % 10), digitChar (Int.natAbs c % 10)])) =
      parseUnsigned (d :: (ds ++ '.' ::
        [digitChar (Int.natAbs c / 10 % 10), digitChar (Int.natAbs c % 10)])) by
        simp [parseDecimalChars, hdd]]
    rw [← List.cons_append, ← hds, parse_centsNumeral]
    rw [Int.cast_natAbs, Int.cast_abs]
    rw [abs_of_nonneg (show (0 : ℚ) ≤ (c : ℚ) by exact_mod_cast not_lt.mp hc)]

theorem rnd2c_div100 (c : ℤ) : rnd2c ((c : ℚ) / 100) = c := by
  unfold rnd2c
  rw [show ((c : ℚ) / 100 * 100 + 1 / 2) = (c : ℚ) + 1 / 2 by ring]
  rw [Int.floor_int_add]
  norm_num

theorem encodeTagChars_div100 (c : ℤ) :
    encodeTagChars ((c : ℚ) / 100) = 'B' :: 'A' :: 'L' :: ':' :: centsToChars c := by
  simp [encodeTagChars, toFixed2Chars, rnd2c_div100]

theorem decodeTag_centsToChars (c : ℤ) :
    decodeTag (('B' :: 'A' :: 'L' :: ':' :: centsToChars c).map Char.toNat) =
      some ((c : ℚ) / 100) := by
  have hascii : ∀ ch ∈ ('B' :: 'A' :: 'L' :: ':' :: centsToChars c), ch.toNat < 128 := by
    intro ch hch
    simp only [List.mem_cons] at hch
    rcases hch with rfl | rfl | rfl | rfl | h
    · decide
    · decide
    · decide
    · decide
    · exact centsToChars_ascii c ch h
  have hchars := bytesToChars_map_toNat _ hascii
  have hskip : firstMatch ('B' :: 'A' :: 'L' :: ':' :: centsToChars c) =
      firstMatch (centsToChars c) := by
    rw [firstMatch_cons_skip 'B' _ (by decide) (by decide),
      firstMatch_cons_skip 'A' _ (by decide) (by decide),
      firstMatch_cons_skip 'L' _ (by decide) (by decide),
      firstMatch_cons_skip ':' _ (by decide) (by decide)]
  have heval : decodeTag (('B' :: 'A' :: 'L' :: ':' :: centsToChars c).map Char.toNat) =
      if bytesToChars (('B' :: 'A' :: 'L' :: ':' :: centsToChars c).map Char.toNat) = []
      then none
      else
        match firstMatch
            (bytesToChars (('B' :: 'A' :: 'L' :: ':' :: centsToChars c).map Char.toNat)) with
        | some m => some (parseDecimalChars m)
        | none => none := rfl
  rw [heval, hchars]
  rw [if_neg (by simp)]
  rw [hskip, firstMatch_centsToChars c]
  rw [show ((if c < 0 then ['-'] else []) ++ natToChars (c.natAbs / 100) ++ '.' ::
      [digitChar (c.natAbs / 10 % 10), digitChar (c.natAbs % 10)]) = centsToChars c
    from rfl]
  have := parseDecimalChars_centsToChars c
  simp only [centsToChars] at this ⊢
  rw [this]

theorem decodeTag_encode_div100 (c : ℤ) :
    decodeTag (encodeTagBytes ((c : ℚ) / 100)) = some ((c : ℚ) / 100) := by
  rw [show encodeTagBytes ((c : ℚ) / 100) =
    ('B' :: 'A' :: 'L' :: ':' :: centsToChars c).map Char.toNat by
      simp [encodeTagBytes, encodeTagChars_div100]]
  exact decodeTag_centsToChars c

theorem takeDigits_no_digit_head (l : List Char)
    (h : ∀ c, l.head? = some c → isDigit c = false) :
    takeDigits l = ([], l) := by
  cases l with
  | nil => simp [takeDigits]
  | cons c cs => simp [takeDigits, h c rfl]

theorem matchUnsignedAt_none_of_no_digit_head (l : List Char)
    (h : ∀ c, l.head? = some c → isDigit c = false) :
    matchUnsignedAt l = none := by
  simp [matchUnsignedAt, takeDigits_no_digit_head l h]

theorem firstMatch_none_of_no_digit (l : List Char)
    (h : ∀ c ∈ l, isDigit c = false) :
    firstMatch l = none := by
  induction l with
  | nil => simp [firstMatch]
  | cons c cs ih =>
    have htail : ∀ x ∈ cs, isDigit x = false := fun x hx => h x (by simp [hx])
    have hhead : ∀ x, cs.head? = some x → isDigit x = false := by
      intro x hx
      apply htail
      cases cs with
      | nil => simp at hx
      | cons a as => simp at hx; simp [hx]
    have hnum : matchNumberAt (c :: cs) = none := by
      simp only [matchNumberAt]
      by_cases hc : c = '-'
      · rw [if_pos hc, matchUnsignedAt_none_of_no_digit_head cs hhead]
        rfl
      · rw [if_neg hc]
        apply matchUnsignedAt_none_of_no_digit_head
        intro x hx
        have hxc : x = c := by
          have h2 := hx
          simp at h2
          exact h2.symm
        rw [hxc]
        exact h c (by simp)
    simp [firstMatch, hnum, ih htail]

theorem extractBalanceGo_none (rs : List NDEFRecordPayload)
    (h : ∀ r ∈ rs, ((decodeRecord r).getD []).all (fun c => !isDigit c) = true) :
    extractBalanceGo rs = none := by
  induction rs with
  | nil => simp [extractBalanceGo]
  | cons r rest ih =>
    have hr := h r (by simp)
    have htail := ih (fun x hx => h x (by simp [hx]))
    cases hdec : decodeRecord r with
    | none => simp [extractBalanceGo, hdec, htail]
    | some text =>
      rw [hdec] at hr
      simp only [Option.getD_some, List.all_eq_true] at hr
      by_cases htext : text = []
      · simp [extractBalanceGo, hdec, htext, htail]
      · have : firstMatch text = none := by
          apply firstMatch_none_of_no_digit
          intro c hc
          simpa using hr c hc
        simp [extractBalanceGo, hdec, htext, this, htail]

/-! ## Evaluation helpers for the scenarios -/

theorem encodeTagBytes_eq_tagBytes (q : ℚ) : encodeTagBytes q = tagBytes (rnd2c q) := rfl

theorem extractBalance_tagEvent (s : String) (c : ℤ) :
    extractBalance (tagEvent s c).message = some ((c : ℚ) / 100) :=
  decodeTag_centsToChars c

theorem extractBalance_tagMsg (c : ℤ) :
    extractBalance { records := [{ data := some (tagBytes c) }] } = some ((c : ℚ) / 100) :=
  decodeTag_centsToChars c

theorem extractBalance_tagMsg_2000 :
    extractBalance { records := [{ data := some (tagBytes 2000) }] } = some 20 := by
  rw [extractBalance_tagMsg 2000]
  norm_num

theorem extractBalance_tagMsg_7000 :
    extractBalance { records := [{ data := some (tagBytes 7000) }] } = some 70 := by
  rw [extractBalance_tagMsg 7000]
  norm_num

/-! ## Claim checks -/

/-- C1: at-most-once application fails on the code. With a verified pending
payment of 50 for reference R1 bound to card A1 and a tag holding 20.00, the
first application writes BAL:70.00. After a reload that restores the
still-persisted pending record (the stipulated window between a successful
tag write and the purge), presenting the same card applies the same reference
a second time: the handler writes BAL:120.00 and reports balance 120 - the
balance is credited twice. No consumed-reference check exists anywhere in the
code, contradicting the claim that the second attempt detects R1 as consumed
and performs no write. -/
theorem c1_double_credit :
    c1First.tagWrite = some (tagBytes 7000) ∧
    c1Resumed.pendingPayment = some c1Pending ∧
    c1Second.tagWrite = some (tagBytes 12000) ∧
    c1Second.state.card.map (fun cd => cd.balance) = some 120 := by
  have hrnd70 : rnd2q ((20 : ℚ) + 50) = 70 := by
    unfold rnd2q rnd2c
    norm_num
  have hrnd120 : rnd2q ((70 : ℚ) + 50) = 120 := by
    unfold rnd2q rnd2c
    norm_num
  have hc70 : rnd2c (70 : ℚ) = 7000 := by
    unfold rnd2c
    norm_num
  have hc120 : rnd2c (120 : ℚ) = 12000 := by
    unfold rnd2c
    norm_num
  have hresumed : c1Resumed.pendingPayment = some c1Pending := rfl
  refine ⟨?_, hresumed, ?_, ?_⟩
  · show (handleReading c1State c1Storage (tagEvent "A1" 2000) true 1).tagWrite =
      some (tagBytes 7000)
    simp only [handleReading, tagEvent, Option.getD_some, c1State, c1Pending, initialState]
    simp only [extractBalance_tagMsg_2000, encodeTagBytes_eq_tagBytes]
    simp [hrnd70, hc70]
  · show (handleReading c1Resumed c1Storage (tagEvent "A1" 7000) true 2).tagWrite =
      some (tagBytes 12000)
    simp only [handleReading, tagEvent, Option.getD_some]
    rw [show c1Resumed.pendingPayment = some c1Pending from rfl]
    simp only [c1Pending]
    simp only [extractBalance_tagMsg_7000, encodeTagBytes_eq_tagBytes]
    simp [hrnd120, hc120]
  · show (handleReading c1Resumed c1Storage (tagEvent "A1" 7000) true 2).state.card.map
      (fun cd => cd.balance) = some 120
    simp only [handleReading, tagEvent, Option.getD_some]
    rw [show c1Resumed.pendingPayment = some c1Pending from rfl]
    simp only [c1Pending]
    simp only [extractBalance_tagMsg_7000]
    simp [hrnd120]

/-- C2 counterexample: the mount-time load consults no clock and no TTL. The
persisted pending record of c2Storage was created at time 0 and the load may
run at any later moment, in particular 360000 ms (6 minutes) later; the claim
says such a record is treated as absent and cleared, but load restores it
unchanged and leaves the storage untouched. -/
theorem c2_ttl_counterexample :
    (mountLoad c2Storage).1.pendingPayment = some c2Pending ∧
    (mountLoad c2Storage).2 = c2Storage :=
  ⟨rfl, rfl⟩

/-- C2 amended: load restores any persisted pending record regardless of the
age of its createdAt timestamp and never clears the stored record; no TTL is
enforced anywhere. -/
theorem c2_load_restores_regardless_of_age (saved : SavedState)
    (pc : Option PendingCardInfo) (p : PendingPayment)
    (h : saved.pendingPayment = some p) :
    (mountLoad { appState := some saved, pendingCard := pc }).1.pendingPayment = some p ∧
    (mountLoad { appState := some saved, pendingCard := pc }).2 =
      { appState := some saved, pendingCard := pc } := by
  constructor
  · simp [mountLoad, loadState, h]
  · rfl

/-- C2 witness: the amended statement applied to the concrete 6-minute-old
record. -/
theorem c2_load_restores_witness :
    (mountLoad { appState := some c2Saved, pendingCard := none }).1.pendingPayment =
      some c2Pending ∧
    (mountLoad { appState := some c2Saved, pendingCard := none }).2 =
      { appState := some c2Saved, pendingCard := none } :=
  c2_load_restores_regardless_of_age c2Saved none c2Pending rfl

theorem jsNumber_50 : jsNumber "50" = some 50 := by
  have h : "50".data = ['5', '0'] := rfl
  have hm : matchNumberAt ['5', '0'] = some ['5', '0'] := by decide
  have ht : takeDigits ['5', '0'] = (['5', '0'], []) := by decide
  have hp : parseDecimalChars ['5', '0'] = 50 := by
    simp only [parseDecimalChars]
    rw [if_neg (by decide : ¬('5' = '-'))]
    simp only [parseUnsigned, ht]
    simp [parseNat, digitVal]
  simp only [jsNumber, h, hm]
  simp [hp]

theorem c3Refill_pendingCard :
    c3Refill.storage.pendingCard =
      some { serialNumber := "A1", balance := 20, userAmount := 50 } := by
  simp only [c3Refill, handleChapaRefill, c3State0, initialState, jsNumber_50, c3InitResp]
  norm_num [MAX_AMOUNT, saveEffect, c3Card]

theorem c3AfterVerify_pending :
    c3AfterVerify.1.pendingPayment =
      some { userAmount := 50, txRef := "R1", cardSerial := "A1", processedAt := 1 } := by
  simp only [c3AfterVerify, verifyPaymentFromUrl, c3VerifyResp, c3Refill_pendingCard]
  simp

/-- Full evaluation of the C3 scenario after the card is presented. -/
theorem c3Final_facts :
    c3Final.tagWrite = some (tagBytes 7000) ∧
    c3Final.state.receipt = some
      { txRef := "R1", amount := 50, vat := 15 / 2, serviceFee := 3 / 4, total := 233 / 4
        reason := "NFC Card Refill", initiatedAt := 1, finalizedAt := 2 } ∧
    c3Final.state.pendingPayment = none ∧
    persistedPending c3Final.storage = none ∧
    c3Final.storage.pendingCard = none := by
  have hrnd70 : rnd2q ((20 : ℚ) + 50) = 70 := by
    unfold rnd2q rnd2c
    norm_num
  have hc70 : rnd2c (70 : ℚ) = 7000 := by
    unfold rnd2c
    norm_num
  have hvat : rnd2q ((50 : ℚ) * (15 / 100)) = 15 / 2 := by
    unfold rnd2q rnd2c
    norm_num
  have hfee : rnd2q ((50 : ℚ) * (15 / 1000)) = 3 / 4 := by
    unfold rnd2q rnd2c
    norm_num
  have htot : rnd2q ((50 : ℚ) * (1165 / 1000)) = 233 / 4 := by
    unfold rnd2q rnd2c
    norm_num
  refine ⟨?_, ?_, ?_, ?_, ?_⟩ <;>
    · simp only [c3Final, handleReading, tagEvent, Option.getD_some]
      rw [c3AfterVerify_pending]
      simp only [extractBalance_tagMsg_2000, encodeTagBytes_eq_tagBytes]
      simp [mkReceipt, hrnd70, hc70, hvat, hfee, htot, persistedPending, saveEffect,
        toSaved, clearAppState]

/-- C3 counterexample: in the end-to-end scenario the receipt total is 58.25
(50 times 1.165), not the 57.83 the claim states. -/
theorem c3_total_counterexample :
    c3Final.state.receipt.map (fun r => r.total) = some (233 / 4) ∧
    (233 / 4 : ℚ) ≠ 5783 / 100 := by
  constructor
  · rw [c3Final_facts.2.1]
    rfl
  · norm_num

/-- C3 amended: the end-to-end scenario writes balance 70.00 to the card and
produces a receipt with reference R1, baseAmount 50 and total 58.25 (the code
computes 50 times 1.165 and rounds), with no pending payment persisted
afterwards in either storage slot. -/
theorem c3_end_to_end :
    c3Final.tagWrite = some (tagBytes 7000) ∧
    c3Final.state.receipt.map (fun r => (r.txRef, r.amount, r.total)) =
      some ("R1", 50, 233 / 4) ∧
    c3Final.state.pendingPayment = none ∧
    persistedPending c3Final.storage = none ∧
    c3Final.storage.pendingCard = none := by
  refine ⟨c3Final_facts.1, ?_, c3Final_facts.2.2.1, c3Final_facts.2.2.2.1,
    c3Final_facts.2.2.2.2⟩
  rw [c3Final_facts.2.1]
  rfl

/-- C4 counterexample: for baseAmount 1.11 the receipt total is 1.29 (round2
of 1.11 times 1.165) while baseAmount + vatAmount + serviceFeeAmount is 1.30;
the total is not the sum of the displayed components. -/
theorem c4_total_counterexample :
    (mkReceipt c4Pending 0).vat = 17 / 100 ∧
    (mkReceipt c4Pending 0).serviceFee = 1 / 50 ∧
    (mkReceipt c4Pending 0).total = 129 / 100 ∧
    (mkReceipt c4Pending 0).amount + (mkReceipt c4Pending 0).vat +
      (mkReceipt c4Pending 0).serviceFee = 13 / 10 ∧
    (129 / 100 : ℚ) ≠ 13 / 10 := by
  norm_num [mkReceipt, c4Pending, rnd2q, rnd2c]

/-- C4 amended: vatAmount is 15 percent and serviceFeeAmount 1.5 percent of
baseAmount, each rounded to 2 fractional digits, as claimed; totalAmount is
baseAmount times 1.165 rounded to 2 fractional digits, not the sum of the
other fields (they differ by a cent for some fractional bases). At the
concrete base 100 the claim holds: vat 15.00, serviceFee 1.50 and total
116.50 = 100 + 15.00 + 1.50. -/
theorem c4_fee_computation :
    (∀ (p : PendingPayment) (now : ℤ),
      (mkReceipt p now).vat = rnd2q (p.userAmount * (15 / 100)) ∧
      (mkReceipt p now).serviceFee = rnd2q (p.userAmount * (15 / 1000)) ∧
      (mkReceipt p now).total = rnd2q (p.userAmount * (1165 / 1000))) ∧
    ((mkReceipt { userAmount := 100, txRef := "T2", cardSerial := "C2", processedAt := 0 } 0).vat
        = 15 ∧
     (mkReceipt { userAmount := 100, txRef := "T2", cardSerial := "C2", processedAt := 0 } 0).serviceFee
        = 3 / 2 ∧
     (mkReceipt { userAmount := 100, txRef := "T2", cardSerial := "C2", processedAt := 0 } 0).total
        = 233 / 2 ∧
     (233 / 2 : ℚ) = 100 + 15 + 3 / 2) := by
  constructor
  · intro p now
    exact ⟨rfl, rfl, rfl⟩
  · norm_num [mkReceipt, rnd2q, rnd2c]

/-- C5: card mismatch rejection. With a verified pending payment bound to one
card, presenting a card with a different serial takes the plain-read path:
the pending record is kept in component state and in the persisted state, no
tag write happens, and the receipt is untouched (the card snapshot and status
message do update, since a fresh read always supersedes the snapshot); a
later presentation of the bound card still applies the increment and writes
the incremented balance. -/
theorem c5_card_mismatch (st : AppState) (storage : Storage) (p : PendingPayment)
    (s2 : String) (b b2 : ℚ) (msg msg2 : NDEFMessagePayload) (wOk : Bool)
    (now now2 : ℤ)
    (hp : st.pendingPayment = some p)
    (hserial : s2 ≠ p.cardSerial)
    (hbal : extractBalance msg = some b)
    (hbal2 : extractBalance msg2 = some b2) :
    (handleReading st storage ⟨some s2, msg⟩ wOk now).state.pendingPayment = some p ∧
    (handleReading st storage ⟨some s2, msg⟩ wOk now).tagWrite = none ∧
    (handleReading st storage ⟨some s2, msg⟩ wOk now).state.receipt = st.receipt ∧
    persistedPending (handleReading st storage ⟨some s2, msg⟩ wOk now).storage = some p ∧
    (handleReading (handleReading st storage ⟨some s2, msg⟩ wOk now).state
        (handleReading st storage ⟨some s2, msg⟩ wOk now).storage
        ⟨some p.cardSerial, msg2⟩ true now2).tagWrite =
      some (encodeTagBytes (rnd2q (b2 + p.userAmount))) ∧
    (handleReading (handleReading st storage ⟨some s2, msg⟩ wOk now).state
        (handleReading st storage ⟨some s2, msg⟩ wOk now).storage
        ⟨some p.cardSerial, msg2⟩ true now2).state.pendingPayment = none := by
  have h1 : handleReading st storage ⟨some s2, msg⟩ wOk now =
      ⟨{ st with
          needsReset := false
          card := some { balance := b, serialNumber := s2, lastSynced := now }
          statusTone := .success
          statusMessage := "Balance pulled directly from the card." },
        saveEffect { st with
          needsReset := false
          card := some { balance := b, serialNumber := s2, lastSynced := now }
          statusTone := .success
          statusMessage := "Balance pulled directly from the card." } storage,
        none⟩ := by
    simp only [handleReading, hbal, hp, Option.getD_some]
    rw [if_neg (fun h => hserial h.symm)]
  have h2 : (handleReading st storage ⟨some s2, msg⟩ wOk now).state.pendingPayment = some p := by
    rw [h1]
    exact hp
  refine ⟨h2, by rw [h1], by rw [h1], ?_, ?_, ?_⟩
  · rw [h1]
    simp [persistedPending, saveEffect, toSaved, hp]
  · rw [h1]
    simp only [handleReading, hbal2, Option.getD_some, hp]
    simp
  · rw [h1]
    simp only [handleReading, hbal2, Option.getD_some, hp]
    simp

/-- C5 witness: pending bound to card A1, card B2 presented first (tag 20.00),
then card A1 presented (tag 70.00). -/
theorem c5_card_mismatch_witness :
    (handleReading c1State c1Storage ⟨some "B2", (tagEvent "B2" 2000).message⟩ true 1).state.pendingPayment
        = some c1Pending ∧
    (handleReading c1State c1Storage ⟨some "B2", (tagEvent "B2" 2000).message⟩ true 1).tagWrite
        = none ∧
    (handleReading
        (handleReading c1State c1Storage ⟨some "B2", (tagEvent "B2" 2000).message⟩ true 1).state
        (handleReading c1State c1Storage ⟨some "B2", (tagEvent "B2" 2000).message⟩ true 1).storage
        ⟨some c1Pending.cardSerial, (tagEvent "A1" 7000).message⟩ true 2).state.pendingPayment
        = none := by
  have h := c5_card_mismatch c1State c1Storage c1Pending "B2" 20 70
    (tagEvent "B2" 2000).message (tagEvent "A1" 7000).message true 1 2
    rfl (by decide) extractBalance_tagMsg_2000 extractBalance_tagMsg_7000
  exact ⟨h.1, h.2.1, h.2.2.2.2.2⟩

/-- C6 counterexample: for a refill requesting 50, both initiate route
variants send the gateway the fixed charge amount "1" (1 ETB), yet the verify
endpoint returns userAmount 50 (the metadata echo) and the client records 50
as the pending amount to credit. The credited amount (50) is not the amount
actually charged (1): the verify route never reads the charged amount of the
transaction. -/
theorem c6_counterexample :
    (buildChapaPayloadMeta c6Body 0).amount = "1" ∧
    (buildChapaPayload c6Body 0).amount = "1" ∧
    c6VerifyResp.userAmount = some 50 ∧
    (c6AfterVerify.1.pendingPayment.map fun p => p.userAmount) = some 50 ∧
    (50 : ℚ) ≠ 1 := by
  refine ⟨rfl, rfl, rfl, ?_, by norm_num⟩
  simp [c6AfterVerify, verifyPaymentFromUrl, c6VerifyResp, chapaVerifyGET, c6Gateway,
    c6Storage]

/-- C6 amended: the amount recorded in the pending payment after a successful
verification is the userAmount echoed through the gateway metadata (with 50
as the default when the metadata is absent); it overrides the locally stored
requested amount, and it is never the gateway-charged amount, which both
initiate route variants fix at the string "1". -/
theorem c6_gateway_amount (gw : ChapaVerifyGatewayResponse) (t : String)
    (st : AppState) (storage : Storage) (resp : VerifyApiResponse)
    (ci : PendingCardInfo) (u : ℚ) (now : ℤ) (b : InitiateRequestBody)
    (hok : gw.ok = true)
    (hci : storage.pendingCard = some ci)
    (hrok : resp.ok = true)
    (hrs : resp.status = some "success")
    (hru : resp.userAmount = some u) :
    (buildChapaPayload b now).amount = "1" ∧
    (buildChapaPayloadMeta b now).amount = "1" ∧
    (chapaVerifyGET true (some t) gw).userAmount =
      some (((gw.dataMetaUserAmount).orElse fun _ => gw.metaUserAmount).getD 50) ∧
    ((verifyPaymentFromUrl st storage (some t) resp now).1.pendingPayment.map
      fun p => p.userAmount) = some u := by
  refine ⟨rfl, rfl, ?_, ?_⟩
  · simp [chapaVerifyGET, hok]
  · simp [verifyPaymentFromUrl, hok, hci, hrok, hrs, hru]

/-- C6 witness: the amended statement at the concrete scenario. -/
theorem c6_gateway_amount_witness :
    (chapaVerifyGET true (some "R1") c6Gateway).userAmount =
      some (((c6Gateway.dataMetaUserAmount).orElse fun _ => c6Gateway.metaUserAmount).getD 50) ∧
    ((verifyPaymentFromUrl initialState c6Storage (some "R1") c6VerifyResp 1).1.pendingPayment.map
      fun p => p.userAmount) = some 50 := by
  have h := c6_gateway_amount c6Gateway "R1" initialState c6Storage c6VerifyResp
    { serialNumber := "A1", balance := 20, userAmount := 50 } 50 1 c6Body
    rfl rfl rfl rfl rfl
  exact ⟨h.2.2.1, h.2.2.2⟩

/-- C7: round trip of the tag codec: for every balance representable with
exactly 2 fractional digits (an integer count of cents over 100), decoding
the tag record produced by encoding that balance returns the balance. -/
theorem c7_codec_roundtrip (cents : ℤ) :
    decodeTag (encodeTagBytes ((cents : ℚ) / 100)) = some ((cents : ℚ) / 100) :=
  decodeTag_encode_div100 cents

/-- C8: decode robustness. extractBalance is a total function of the message
(the try/catch around record decoding is modelled by totality, so no input
raises), and whenever no record decodes to text containing a digit - missing
data, malformed non-text bytes, empty text - the result is none (absent), not
an error. -/
theorem c8_decode_robust (msg : NDEFMessagePayload)
    (h : ∀ r ∈ msg.records,
      ((decodeRecord r).getD []).all (fun c => !isDigit c) = true) :
    extractBalance msg = none :=
  extractBalanceGo_none msg.records h

/-- C8 witness: a message with a missing payload, malformed bytes and an
empty payload decodes to none. -/
theorem c8_decode_robust_witness : extractBalance c8Msg = none :=
  c8_decode_robust c8Msg (by decide)

/-- C9: both initiate route variants send the fixed charge amount "1" (1 ETB)
to the payment gateway regardless of the requested amount; the checked-in
route does not transmit the requested amount at all, while the variant route
carries it (defaulted to 50) only in the request metadata. -/
theorem c9_fixed_charge (b : InitiateRequestBody) (now : ℤ) :
    (buildChapaPayload b now).amount = "1" ∧
    (buildChapaPayloadMeta b now).amount = "1" ∧
    (buildChapaPayload b now).metaUserAmount = none ∧
    (buildChapaPayloadMeta b now).metaUserAmount = some ((b.amount).getD 50) :=
  ⟨rfl, rfl, rfl, rfl⟩

/-- C10: when the gateway reports success and carries no userAmount in its
metadata, the verify endpoint returns userAmount 50 and the client records 50
as the pending amount to credit; any gateway status other than "success" is
mapped to the single outcome "failed". -/
theorem c10_default_amount :
    (∀ (gw : ChapaVerifyGatewayResponse) (t : String),
      gw.ok = true → gw.status = some "success" →
      gw.dataMetaUserAmount = none → gw.metaUserAmount = none →
      (chapaVerifyGET true (some t) gw).userAmount = some 50 ∧
      (chapaVerifyGET true (some t) gw).status = some "success") ∧
    (∀ (gw : ChapaVerifyGatewayResponse) (t : String),
      gw.ok = true → gw.status ≠ some "success" →
      (chapaVerifyGET true (some t) gw).status = some "failed") ∧
    (∀ (st : AppState) (storage : Storage) (t : String) (resp : VerifyApiResponse)
      (ci : PendingCardInfo) (now : ℤ),
      storage.pendingCard = some ci → resp.ok = true → resp.status = some "success" →
      resp.userAmount = some 50 →
      ((verifyPaymentFromUrl st storage (some t) resp now).1.pendingPayment.map
        fun p => p.userAmount) = some 50) := by
  refine ⟨?_, ?_, ?_⟩
  · intro gw t hok hs h1 h2
    constructor
    · simp [chapaVerifyGET, hok, h1, h2]
    · simp [chapaVerifyGET, hok, hs]
  · intro gw t hok hs
    simp [chapaVerifyGET, hok, hs]
  · intro st storage t resp ci now hci hrok hrs hru
    simp [verifyPaymentFromUrl, hci, hrok, hrs, hru]

/-- C10 witness: the three parts at concrete inputs: a success verification
with no metadata yields 50 server-side and client-side, and a "pending"
gateway status is returned as "failed". -/
theorem c10_default_amount_witness :
    (chapaVerifyGET true (some "R9") c10Gateway).userAmount = some 50 ∧
    (chapaVerifyGET true (some "R9") c10FailGateway).status = some "failed" ∧
    ((verifyPaymentFromUrl initialState c10Storage (some "R9")
        (chapaVerifyGET true (some "R9") c10Gateway) 1).1.pendingPayment.map
      fun p => p.userAmount) = some 50 := by
  refine ⟨(c10_default_amount.1 c10Gateway "R9" rfl rfl rfl rfl).1,
    c10_default_amount.2.1 c10FailGateway "R9" rfl (by decide),
    c10_default_amount.2.2 initialState c10Storage "R9"
      (chapaVerifyGET true (some "R9") c10Gateway)
      { serialNumber := "A7", balance := 0, userAmount := 75 } 1 rfl rfl rfl rfl⟩
